import Mathlib

/-!
Verification development for the Image-Processing-Service repository.

The repository's core is an image transformation pipeline (`src/utils/imageProcessor.js`,
built on the `sharp` library), a Bull-backed job queue (`src/utils/queue.js`, the unnamed
queue module) and the job status routes (`src/routes/jobs.js`).  `sharp` itself is an
external collaborator: its operations are modelled symbolically as constructors of a
`Buf` term, so that which operations execute, in which order, with which parameters, and
which failures the repository's own code raises, are all captured faithfully.

JavaScript truthiness is modelled explicitly: an optional numeric field is "truthy" when
it is present and non-zero, an optional string when present and non-empty.
-/

/-- JS truthiness of an optional numeric (Rat) value: `undefined`, `0` are falsy. -/
def truthyNum : Option Rat → Bool
  | none => false
  | some q => decide (q ≠ 0)

/-- JS truthiness of an optional natural value: `undefined`, `0` are falsy. -/
def truthyNat : Option Nat → Bool
  | none => false
  | some n => decide (n ≠ 0)

/-- JS truthiness of an optional string: `undefined`, `""` are falsy. -/
def truthyStr : Option String → Bool
  | none => false
  | some s => decide (s ≠ "")

/-- JS `a || b` for an optional natural: falls back to the default when absent or `0`
(as in `options.quality || this.defaultQuality`). -/
def orTruthyNat (a : Option Nat) (b : Nat) : Nat :=
  match a with
  | none => b
  | some n => if n ≠ 0 then n else b

/-- JS `a || b` for an optional string (as in `format || metadata.format`). -/
def orTruthyStr (a : Option String) (b : String) : String :=
  match a with
  | none => b
  | some s => if s ≠ "" then s else b

/-- One atomic `sharp` call made by `ImageProcessor.applyFilters`
(`src/utils/imageProcessor.js` lines 140-180), in the order the source chains them. -/
inductive FilterStep where
  | grayscale
  | tint (r g b : Nat)
  | blur (sigma : Rat)
  | sharpen
  | modulateBrightness (b : Rat)
  | linear (slope intercept : Rat)
  | modulateSaturation (s : Rat)
deriving DecidableEq, Repr

/-- Symbolic image buffer: a term recording, innermost first, every `sharp` operation
that produced it.  `src` is an opaque source buffer together with its encoded format
(what `sharp(buffer).metadata().format` would report). -/
inductive Buf where
  | src (id : Nat) (format : String)
  | rotate (b : Buf) (angle : Rat)
  | flip (b : Buf)
  | flop (b : Buf)
  | extract (b : Buf) (left top width height : Nat)
  | resized (b : Buf) (width height : Option Nat) (fit : String) (withoutEnlargement : Bool)
  | filtered (b : Buf) (steps : List FilterStep)
  | composited (b : Buf) (overlay : Buf) (gravity : String) (opacity : Rat)
  | encoded (b : Buf) (format : String) (quality : Nat) (progressive : Bool)
      (compressionLevel : Nat) (lossless : Bool)
deriving DecidableEq, Repr

/-- The encoded format `sharp` metadata reports for a buffer: geometric and pixel
operations keep the source encoding, an encode step replaces it. -/
def bufFormat : Buf → String
  | .src _ f => f
  | .rotate b _ => bufFormat b
  | .flip b => bufFormat b
  | .flop b => bufFormat b
  | .extract b _ _ _ _ => bufFormat b
  | .resized b _ _ _ _ => bufFormat b
  | .filtered b _ => bufFormat b
  | .composited b _ _ _ => bufFormat b
  | .encoded _ f _ _ _ _ => f

/-- ASCII lowercase of one character (format names are ASCII). -/
def lowerChar (c : Char) : Char :=
  if c.isUpper then Char.ofNat (c.toNat + 32) else c

/-- `format.toLowerCase()` as `ImageProcessor.changeFormat` applies it to the target
format name. -/
def toLowerAscii (s : String) : String := ⟨s.data.map lowerChar⟩

/-- Failures the repository's own image code raises (`throw new Error(...)` sites in
`src/utils/imageProcessor.js`), named after the spec's §7 error taxonomy. -/
inductive PErr where
  | dimensionExceeded (maxDim : Nat)
  | invalidCropRegion
  | unsupportedFormat (format : String)
deriving DecidableEq, Repr

/-- `resize` options (`src/utils/validation.js` lines 50-55 and the destructuring
defaults in `ImageProcessor.resize`). -/
structure ResizeOpts where
  width : Option Nat := none
  height : Option Nat := none
  fit : String := "inside"
  withoutEnlargement : Bool := true
deriving DecidableEq, Repr

/-- `crop` options (`ImageProcessor.crop` destructures `{width, height, x = 0, y = 0}`). -/
structure CropOpts where
  width : Option Nat := none
  height : Option Nat := none
  x : Nat := 0
  y : Nat := 0
deriving DecidableEq, Repr

/-- `filters` options (`src/utils/imageProcessor.js` lines 140-180); every field is
optional in the request body. -/
structure FilterOpts where
  grayscale : Bool := false
  sepia : Bool := false
  blur : Option Rat := none
  sharpen : Bool := false
  brightness : Option Rat := none
  contrast : Option Rat := none
  saturation : Option Rat := none
deriving DecidableEq, Repr

/-- `formatOptions` (`src/utils/validation.js` lines 82-87). -/
structure FormatOptions where
  quality : Option Nat := none
  progressive : Option Bool := none
  compressionLevel : Option Nat := none
  lossless : Option Bool := none
deriving DecidableEq, Repr

/-- `compress` options (`ImageProcessor.compress` destructures
`{quality = this.defaultQuality, format}`; the destructuring default fires only on
`undefined`). -/
structure CompressOpts where
  quality : Option Nat := none
  format : Option String := none
deriving DecidableEq, Repr

/-- `watermark.options` (`ImageProcessor.addWatermark` destructures
`{gravity = 'southeast', opacity = 0.5}`). -/
structure WatermarkOptions where
  gravity : Option String := none
  opacity : Option Rat := none
deriving DecidableEq, Repr

/-- The `watermark` field of a transformation request.  `image` holds the overlay
buffer when one was supplied; the pipeline's guard is
`transformations.watermark && transformations.watermark.image`
(`src/utils/imageProcessor.js` line 318). -/
structure WatermarkSpec where
  image : Option Buf := none
  text : Option String := none
  options : Option WatermarkOptions := none
deriving DecidableEq, Repr

/-- A Transform Specification: the `transformations` object accepted by
`POST /images/:id/transform` (`src/utils/validation.js` lines 48-105).  A record has
no field order, so "order fields appear in the specification" cannot influence the
embedding, exactly as the executor ignores it in the source. -/
structure Transformations where
  resize : Option ResizeOpts := none
  crop : Option CropOpts := none
  rotate : Option Rat := none
  flip : Bool := false
  mirror : Bool := false
  filters : Option FilterOpts := none
  format : Option String := none
  formatOptions : Option FormatOptions := none
  compress : Option CompressOpts := none
  watermark : Option WatermarkSpec := none
deriving DecidableEq, Repr

namespace ImageProcessor

/-- `this.maxDimension` (constructor default `parseInt(process.env.MAX_IMAGE_DIMENSION)
|| 4000`); the deployment default is modelled. -/
def maxDimension : Nat := 4000

/-- `this.defaultQuality` (constructor default 80). -/
def defaultQuality : Nat := 80

/-- `ImageProcessor.resize` (`src/utils/imageProcessor.js` lines 40-60): throws when a
supplied dimension exceeds `maxDimension` (an absent dimension compares falsy, i.e.
`undefined > 4000` is false), then resizes only when a truthy width or height is given,
otherwise re-emits the buffer unchanged. -/
def resize (b : Buf) (o : ResizeOpts) : Except PErr Buf :=
  if o.width.getD 0 > maxDimension || o.height.getD 0 > maxDimension then
    .error (.dimensionExceeded maxDimension)
  else if truthyNat o.width || truthyNat o.height then
    .ok (.resized b o.width o.height o.fit o.withoutEnlargement)
  else
    .ok b

/-- `ImageProcessor.crop` (lines 68-83): `if (!width || !height) throw`, then
`extract({left: x, top: y, width, height})`. -/
def crop (b : Buf) (o : CropOpts) : Except PErr Buf :=
  if !truthyNat o.width || !truthyNat o.height then
    .error .invalidCropRegion
  else
    .ok (.extract b o.x o.y (o.width.getD 0) (o.height.getD 0))

/-- `ImageProcessor.rotate` (lines 91-100). -/
def rotate (b : Buf) (angle : Rat) : Except PErr Buf :=
  .ok (.rotate b angle)

/-- `ImageProcessor.flip` (lines 107-116): `sharp(buffer).flip()`. -/
def flip (b : Buf) : Except PErr Buf :=
  .ok (.flip b)

/-- `ImageProcessor.mirror` (lines 123-132): `sharp(buffer).flop()`. -/
def mirror (b : Buf) : Except PErr Buf :=
  .ok (.flop b)

/-- The chain of `sharp` calls `ImageProcessor.applyFilters` makes for a given filter
set (lines 140-180): each branch tests JS truthiness of its field, in source order
grayscale, sepia (tint 255/238/196), blur, sharpen, brightness, contrast
(`linear(c, 128*(1-c))`), saturation. -/
def appliedFilters (f : FilterOpts) : List FilterStep :=
  (if f.grayscale then [.grayscale] else []) ++
  (if f.sepia then [.tint 255 238 196] else []) ++
  (if truthyNum f.blur then [.blur (f.blur.getD 1)] else []) ++
  (if f.sharpen then [.sharpen] else []) ++
  (if truthyNum f.brightness then [.modulateBrightness (f.brightness.getD 1)] else []) ++
  (if truthyNum f.contrast then
      [.linear (f.contrast.getD 1) (128 * (1 - f.contrast.getD 1))] else []) ++
  (if truthyNum f.saturation then [.modulateSaturation (f.saturation.getD 1)] else [])

/-- `ImageProcessor.applyFilters`: runs the filter chain through one `sharp` instance
and re-encodes; it never throws for any filter set. -/
def applyFilters (b : Buf) (f : FilterOpts) : Except PErr Buf :=
  .ok (.filtered b (appliedFilters f))

/-- `ImageProcessor.changeFormat` (lines 189-227): switches on `format.toLowerCase()`;
`jpeg`/`jpg`, `png`, `webp` and `avif` map to encoders with `||`-defaulted options, and
any other format throws `Unsupported format`. -/
def changeFormat (b : Buf) (format : String) (options : FormatOptions) : Except PErr Buf :=
  match toLowerAscii format with
  | "jpeg" => .ok (.encoded b "jpeg" (orTruthyNat options.quality defaultQuality)
      (options.progressive.getD false) 0 false)
  | "jpg" => .ok (.encoded b "jpeg" (orTruthyNat options.quality defaultQuality)
      (options.progressive.getD false) 0 false)
  | "png" => .ok (.encoded b "png" 0 (options.progressive.getD false)
      (orTruthyNat options.compressionLevel 6) false)
  | "webp" => .ok (.encoded b "webp" (orTruthyNat options.quality defaultQuality)
      false 0 (options.lossless.getD false))
  | "avif" => .ok (.encoded b "avif" (orTruthyNat options.quality defaultQuality)
      false 0 false)
  | _ => .error (.unsupportedFormat format)

/-- `ImageProcessor.compress` (lines 235-246): re-encodes at the given quality in
`options.format || metadata.format` — the source buffer's current format when no
override is supplied. -/
def compress (b : Buf) (o : CompressOpts) : Except PErr Buf :=
  let originalFormat := orTruthyStr o.format (bufFormat b)
  changeFormat b originalFormat { quality := some (o.quality.getD defaultQuality) }

/-- `ImageProcessor.addWatermark` (lines 255-281): scales the overlay to 20% of the
base width, applies the opacity mask, and composites at the requested gravity
(defaults `southeast`, opacity 0.5). -/
def addWatermark (b : Buf) (wm : Buf) (o : Option WatermarkOptions) : Except PErr Buf :=
  let oo := o.getD {}
  .ok (.composited b wm (oo.gravity.getD "southeast") (oo.opacity.getD (1/2)))

/-- Stage 1 of `ImageProcessor.transform` (line 294): `if (transformations.rotate)`. -/
def stageRotate (t : Transformations) (b : Buf) : Except PErr Buf :=
  if truthyNum t.rotate then rotate b (t.rotate.getD 0) else .ok b

/-- Stage 2 (line 298): `if (transformations.flip)`. -/
def stageFlip (t : Transformations) (b : Buf) : Except PErr Buf :=
  if t.flip then flip b else .ok b

/-- Stage 3 (line 302): `if (transformations.mirror)`. -/
def stageMirror (t : Transformations) (b : Buf) : Except PErr Buf :=
  if t.mirror then mirror b else .ok b

/-- Stage 4 (line 306): `if (transformations.crop)`. -/
def stageCrop (t : Transformations) (b : Buf) : Except PErr Buf :=
  match t.crop with
  | some c => crop b c
  | none => .ok b

/-- Stage 5 (line 310): `if (transformations.resize)`. -/
def stageResize (t : Transformations) (b : Buf) : Except PErr Buf :=
  match t.resize with
  | some r => resize b r
  | none => .ok b

/-- Stage 6 (line 314): `if (transformations.filters)`. -/
def stageFilters (t : Transformations) (b : Buf) : Except PErr Buf :=
  match t.filters with
  | some f => applyFilters b f
  | none => .ok b

/-- Stage 7 (line 318): `if (transformations.watermark && transformations.watermark.image)`
— a watermark request without overlay bytes falls through without running the stage. -/
def stageWatermark (t : Transformations) (b : Buf) : Except PErr Buf :=
  match t.watermark with
  | some w =>
    match w.image with
    | some wb => addWatermark b wb w.options
    | none => .ok b
  | none => .ok b

/-- Stage 8 (line 326): `if (transformations.compress)`. -/
def stageCompress (t : Transformations) (b : Buf) : Except PErr Buf :=
  match t.compress with
  | some c => compress b c
  | none => .ok b

/-- Stage 9 (line 330): `if (transformations.format)` with
`transformations.formatOptions || {}`. -/
def stageFormat (t : Transformations) (b : Buf) : Except PErr Buf :=
  if truthyStr t.format then changeFormat b (t.format.getD "") (t.formatOptions.getD {})
  else .ok b

/-- `ImageProcessor.transform` (lines 289-343): the nine conditionals executed in
source order, each feeding its output buffer to the next; the first failure aborts
the whole pipeline. -/
def transform (b : Buf) (t : Transformations) : Except PErr Buf :=
  stageRotate t b >>= stageFlip t >>= stageMirror t >>= stageCrop t >>= stageResize t
    >>= stageFilters t >>= stageWatermark t >>= stageCompress t >>= stageFormat t

end ImageProcessor

example : ImageProcessor.transform (Buf.src 0 "png") {} = Except.ok (Buf.src 0 "png") := rfl

/-- The kind of pipeline stage an operation node belongs to; both `compress` and
format conversion materialise as an encode node. -/
inductive OpKind where
  | rotate
  | flip
  | mirror
  | crop
  | resize
  | filters
  | watermark
  | encode
deriving DecidableEq, Repr

/-- The operations recorded in a buffer term, in the order they were applied. -/
def trace : Buf → List OpKind
  | .src _ _ => []
  | .rotate b _ => trace b ++ [.rotate]
  | .flip b => trace b ++ [.flip]
  | .flop b => trace b ++ [.mirror]
  | .extract b _ _ _ _ => trace b ++ [.crop]
  | .resized b _ _ _ _ => trace b ++ [.resize]
  | .filtered b _ => trace b ++ [.filters]
  | .composited b _ _ _ => trace b ++ [.watermark]
  | .encoded b _ _ _ _ _ => trace b ++ [.encode]

namespace ImageProcessor

/-- Rotate's contribution to a successful pipeline run. -/
def rotateDelta (t : Transformations) : List OpKind :=
  if truthyNum t.rotate then [.rotate] else []

/-- Flip's contribution to a successful pipeline run. -/
def flipDelta (t : Transformations) : List OpKind :=
  if t.flip then [.flip] else []

/-- Mirror's contribution to a successful pipeline run. -/
def mirrorDelta (t : Transformations) : List OpKind :=
  if t.mirror then [.mirror] else []

/-- Crop's contribution to a successful pipeline run. -/
def cropDelta (t : Transformations) : List OpKind :=
  if t.crop.isSome then [.crop] else []

/-- Resize's contribution to a successful pipeline run (a request carrying neither a
truthy width nor a truthy height leaves the buffer untouched). -/
def resizeDelta (t : Transformations) : List OpKind :=
  match t.resize with
  | some r => if truthyNat r.width || truthyNat r.height then [.resize] else []
  | none => []

/-- Filters' contribution to a successful pipeline run. -/
def filtersDelta (t : Transformations) : List OpKind :=
  if t.filters.isSome then [.filters] else []

/-- Watermark's contribution: present only when overlay bytes were supplied. -/
def watermarkDelta (t : Transformations) : List OpKind :=
  match t.watermark with
  | some w => if w.image.isSome then [.watermark] else []
  | none => []

/-- Compress's contribution to a successful pipeline run. -/
def compressDelta (t : Transformations) : List OpKind :=
  if t.compress.isSome then [.encode] else []

/-- Format conversion's contribution to a successful pipeline run. -/
def formatDelta (t : Transformations) : List OpKind :=
  if truthyStr t.format then [.encode] else []

/-- The fixed precedence the spec prescribes in §4.2, written stage by stage: a
requested operation appears exactly at its place in
rotate → flip → mirror → crop → resize → filters → watermark → compress → format,
and an absent (or falsy) field contributes nothing. -/
def specOrderTrace (t : Transformations) : List OpKind :=
  rotateDelta t ++ flipDelta t ++ mirrorDelta t ++ cropDelta t ++ resizeDelta t ++
    filtersDelta t ++ watermarkDelta t ++ compressDelta t ++ formatDelta t

lemma changeFormat_trace (b b' : Buf) (f : String) (o : FormatOptions)
    (h : changeFormat b f o = .ok b') : trace b' = trace b ++ [OpKind.encode] := by
  unfold changeFormat at h
  split at h <;>
    first
      | (simp only [Except.ok.injEq] at h; subst h; simp [trace])
      | simp_all

lemma stageRotate_trace (t : Transformations) :
    ∀ b b', stageRotate t b = .ok b' → trace b' = trace b ++ rotateDelta t := by
  intro b b' h
  unfold stageRotate rotate at h
  unfold rotateDelta
  split at h <;> (simp only [Except.ok.injEq] at h; subst h; simp_all [trace])

lemma stageFlip_trace (t : Transformations) :
    ∀ b b', stageFlip t b = .ok b' → trace b' = trace b ++ flipDelta t := by
  intro b b' h
  unfold stageFlip flip at h
  unfold flipDelta
  split at h <;> (simp only [Except.ok.injEq] at h; subst h; simp_all [trace])

lemma stageMirror_trace (t : Transformations) :
    ∀ b b', stageMirror t b = .ok b' → trace b' = trace b ++ mirrorDelta t := by
  intro b b' h
  unfold stageMirror mirror at h
  unfold mirrorDelta
  split at h <;> (simp only [Except.ok.injEq] at h; subst h; simp_all [trace])

lemma stageCrop_trace (t : Transformations) :
    ∀ b b', stageCrop t b = .ok b' → trace b' = trace b ++ cropDelta t := by
  intro b b' h
  unfold stageCrop at h
  unfold cropDelta
  split at h
  · rename_i c hc
    unfold crop at h
    split at h
    · simp_all
    · simp only [Except.ok.injEq] at h; subst h; simp_all [trace]
  · simp only [Except.ok.injEq] at h; subst h; simp_all [trace]

lemma stageResize_trace (t : Transformations) :
    ∀ b b', stageResize t b = .ok b' → trace b' = trace b ++ resizeDelta t := by
  intro b b' h
  unfold stageResize at h
  unfold resizeDelta
  split at h
  · rename_i r hr
    unfold resize at h
    split at h
    · simp_all
    · split at h <;> (simp only [Except.ok.injEq] at h; subst h; simp_all [trace])
  · simp only [Except.ok.injEq] at h; subst h; simp_all [trace]

lemma stageFilters_trace (t : Transformations) :
    ∀ b b', stageFilters t b = .ok b' → trace b' = trace b ++ filtersDelta t := by
  intro b b' h
  unfold stageFilters applyFilters at h
  unfold filtersDelta
  split at h <;> (simp only [Except.ok.injEq] at h; subst h; simp_all [trace])

lemma stageWatermark_trace (t : Transformations) :
    ∀ b b', stageWatermark t b = .ok b' → trace b' = trace b ++ watermarkDelta t := by
  intro b b' h
  unfold stageWatermark addWatermark at h
  unfold watermarkDelta
  split at h
  · rename_i w hw
    split at h <;> (simp only [Except.ok.injEq] at h; subst h; simp_all [trace])
  · simp only [Except.ok.injEq] at h; subst h; simp_all [trace]

lemma stageCompress_trace (t : Transformations) :
    ∀ b b', stageCompress t b = .ok b' → trace b' = trace b ++ compressDelta t := by
  intro b b' h
  unfold stageCompress at h
  unfold compressDelta
  split at h
  · rename_i c hc
    unfold compress at h
    have := changeFormat_trace _ _ _ _ h
    simp_all
  · simp_all

lemma stageFormat_trace (t : Transformations) :
    ∀ b b', stageFormat t b = .ok b' → trace b' = trace b ++ formatDelta t := by
  intro b b' h
  unfold stageFormat at h
  unfold formatDelta
  split at h
  · have := changeFormat_trace _ _ _ _ h
    simp_all
  · simp_all

lemma bind_trace {s₁ s₂ : Buf → Except PErr Buf} {d₁ d₂ : List OpKind}
    (h₁ : ∀ b b', s₁ b = .ok b' → trace b' = trace b ++ d₁)
    (h₂ : ∀ b b', s₂ b = .ok b' → trace b' = trace b ++ d₂) :
    ∀ b b', s₁ b >>= s₂ = .ok b' → trace b' = trace b ++ (d₁ ++ d₂) := by
  intro b b' h
  cases hb : s₁ b with
  | error e =>
    rw [hb] at h
    simp [Bind.bind, Except.bind] at h
  | ok m =>
    rw [hb] at h
    simp only [Bind.bind, Except.bind] at h
    have hm := h₁ b m hb
    have hm' := h₂ m b' h
    rw [hm', hm, List.append_assoc]

end ImageProcessor


/-! ## Job queue model

The queue module (`src/utils/queue.js`, unnamed part of the sources) builds a Bull
queue, registers the `transform` and `optimize` processors, schedules cleanup, and
exposes `addTransformJob` / `addOptimizeJob`.  Bull itself is an external collaborator:
a queue is modelled as a list of job records, and a worker run as a function of an
environment that fixes the outcome of every external call (DB lookups, S3 transfers).
-/

/-- A Bull job payload.  `addTransformJob` enqueues
`{imageId, transformations, userId}`; `addOptimizeJob` enqueues `{imageId}` only, so
its payload has no `userId`. -/
structure JobData where
  imageId : Nat
  userId : Option String := none
  transformations : Option Transformations := none
deriving DecidableEq, Repr

/-- A job record as Bull stores it, with the fields the routes read. -/
structure QJob where
  id : Nat
  name : String
  data : JobData
  progress : Nat
  state : String
  timestamp : Nat
  processedOn : Option Nat := none
  finishedOn : Option Nat := none
  failedReason : Option String := none
deriving DecidableEq, Repr

/-- The JSON snapshot both job routes build from a job
(`src/routes/jobs.js` lines 31-41 and 73-83). -/
structure JobSnapshot where
  id : Nat
  type : String
  state : String
  progress : Nat
  data : JobData
  createdAt : Nat
  processedOn : Option Nat
  finishedOn : Option Nat
  failedReason : Option String
deriving DecidableEq, Repr

/-- Field-for-field construction of the response snapshot from a job record. -/
def snapshotOf (j : QJob) : JobSnapshot :=
  { id := j.id, type := j.name, state := j.state, progress := j.progress, data := j.data,
    createdAt := j.timestamp, processedOn := j.processedOn, finishedOn := j.finishedOn,
    failedReason := j.failedReason }

/-- Response of `GET /api/jobs/:id`: 404 or the job snapshot. -/
inductive JobQueryResponse where
  | notFound
  | found (job : JobSnapshot)
deriving DecidableEq, Repr

/-- The `GET /api/jobs/:id` handler (`src/routes/jobs.js` lines 13-47): looks the job
up by id in the queue and answers 404 only when the lookup fails.  The authenticated
requester (`req.user`) is in scope but the handler never consults it. -/
def getJobByIdHandler (queue : List QJob) (jobId : Nat) (_requesterId : String) :
    JobQueryResponse :=
  match queue.find? (fun j => j.id == jobId) with
  | none => .notFound
  | some j => .found (snapshotOf j)

/-- The `GET /api/jobs` handler (`src/routes/jobs.js` lines 54-100): fetches a page of
jobs in the requested states (all four states when no filter is given), then keeps only
jobs with `job.data.userId === req.user.id.toString()`, and maps them to snapshots. -/
def getJobsHandler (queue : List QJob) (stateFilter : Option String)
    (page limit : Nat) (requesterId : String) : List JobSnapshot :=
  let states := match stateFilter with
    | some s => [s]
    | none => ["waiting", "active", "completed", "failed"]
  let jobs := ((queue.filter (fun j => states.contains j.state)).drop ((page - 1) * limit)).take limit
  let userJobs := jobs.filter (fun j => j.data.userId == some requesterId)
  userJobs.map snapshotOf

/-- The Bull options a job kind is enqueued with. -/
structure JobOptions where
  attempts : Nat
  backoffType : String
  backoffDelay : Nat
  removeOnComplete : Bool
  removeOnFail : Bool
deriving DecidableEq, Repr

/-- `addTransformJob` (`src/utils/queue.js` lines 260-274): payload
`{imageId, transformations, userId}` with attempts 3, exponential backoff from 2000 ms,
`removeOnComplete: true`, `removeOnFail: false`. -/
def addTransformJob (imageId : Nat) (transformations : Transformations)
    (userId : String) : JobData × JobOptions :=
  ({ imageId := imageId, userId := some userId, transformations := some transformations },
   { attempts := 3, backoffType := "exponential", backoffDelay := 2000,
     removeOnComplete := true, removeOnFail := false })

/-- `addOptimizeJob` (`src/utils/queue.js` lines 277-289): payload `{imageId}` with
attempts 2, exponential backoff from 1000 ms, `removeOnComplete: true`,
`removeOnFail: false`. -/
def addOptimizeJob (imageId : Nat) : JobData × JobOptions :=
  ({ imageId := imageId },
   { attempts := 2, backoffType := "exponential", backoffDelay := 1000,
     removeOnComplete := true, removeOnFail := false })

/-- One `imageProcessingQueue.clean(grace, status)` call. -/
structure CleanCall where
  grace : Nat
  status : String
deriving DecidableEq, Repr

/-- The cleanup the queue module schedules at initialisation
(`src/utils/queue.js` lines 252-254): a 24-hour clean of completed jobs AND a 24-hour
clean of failed jobs. -/
def queueCleanCalls : List CleanCall :=
  [{ grace := 24 * 60 * 60 * 1000, status := "completed" },
   { grace := 24 * 60 * 60 * 1000, status := "failed" }]

/-- Modelled from Bull's documented `clean(grace, status)` semantics (the queue backend
is an external collaborator): the call removes jobs in the given status that finished
at least `grace` milliseconds before `now`. -/
def cleanRemoves (c : CleanCall) (now : Nat) (j : QJob) : Bool :=
  j.state == c.status &&
    (match j.finishedOn with
     | some f => decide (f + c.grace ≤ now)
     | none => false)

/-- The effect of running every configured clean call on the queue at time `now`. -/
def runQueueCleans (now : Nat) (jobs : List QJob) : List QJob :=
  jobs.filter (fun j => !(queueCleanCalls.any (fun c => cleanRemoves c now j)))

/-! ## Worker processors

`imageProcessingQueue.process('transform', ...)` and
`imageProcessingQueue.process('optimize', ...)` (`src/utils/queue.js` lines 72-177 and
180-237).  Every `await` on a collaborator (Mongo lookups, S3 transfers, record saves,
user updates) may throw; an environment record fixes each outcome, and the processor
returns the `job.progress(...)` calls it made together with its result.
-/

/-- The slice of a persisted image record the workers read. -/
structure ImageRec where
  userId : String
  filename : String
  mimeType : String
  size : Nat
  s3Key : String
  format : String
deriving DecidableEq, Repr

deriving instance DecidableEq for Except

/-- Why a worker attempt failed: a collaborator threw (message kept verbatim), or the
image pipeline itself failed. -/
inductive JobError where
  | msg (s : String)
  | op (e : PErr)
deriving DecidableEq, Repr

/-- Outcomes of the external calls one transform-job attempt makes, in source order. -/
structure TransformJobEnv where
  image : Option ImageRec
  download : Except String Buf
  upload : Except String Unit
  metadataOk : Except String Unit
  saveOk : Except String Unit
  userUpdateOk : Except String Unit
deriving DecidableEq, Repr

/-- The transform processor (`src/utils/queue.js` lines 72-177).  Checkpoints in the
source: `progress(10)` on entry, `(20)` after the image lookup, `(40)` after the S3
download, `(60)` after the pipeline, `(70)` after key/MIME derivation, `(80)` after the
upload, `(90)` after the derived record is saved, `(100)` after the user's storage
usage is updated; any throw aborts the attempt with the progress made so far. -/
def processTransform (env : TransformJobEnv) (transformations : Transformations) :
    List Nat × Except JobError Unit :=
  match env.image with
  | none => ([10], .error (.msg "Image not found"))
  | some _img =>
    match env.download with
    | .error e => ([10, 20], .error (.msg e))
    | .ok buf =>
      match ImageProcessor.transform buf transformations with
      | .error e => ([10, 20, 40], .error (.op e))
      | .ok _tb =>
        match env.upload with
        | .error e => ([10, 20, 40, 60, 70], .error (.msg e))
        | .ok _ =>
          match env.metadataOk with
          | .error e => ([10, 20, 40, 60, 70, 80], .error (.msg e))
          | .ok _ =>
            match env.saveOk with
            | .error e => ([10, 20, 40, 60, 70, 80], .error (.msg e))
            | .ok _ =>
              match env.userUpdateOk with
              | .error e => ([10, 20, 40, 60, 70, 80, 90], .error (.msg e))
              | .ok _ => ([10, 20, 40, 60, 70, 80, 90, 100], .ok ())

/-- Persisted state an optimize job may mutate: the image record (found by id), a
version counter for the bytes stored at the image's S3 key, and the owner's storage
usage. -/
structure PersistedState where
  image : Option ImageRec
  storedVersion : Nat
  userStorageUsed : Int
deriving DecidableEq, Repr

/-- Outcomes of the external calls one optimize-job attempt makes.  `optimizedLength`
is the byte length of the re-encoded buffer when compression succeeds (the encoder's
output size is outside the model). -/
structure OptimizeEnv where
  download : Except String Buf
  optimizedLength : Nat
  upload : Except String Unit
  saveOk : Except String Unit
  userUpdateOk : Except String Unit
deriving DecidableEq, Repr

/-- The worker's result payload for an optimize job: the source returns
`{ success: true, optimized: true }` on line 231 — the only `return` in the handler,
reached by the replacement branch and the no-op branch alike. -/
structure OptimizeResult where
  success : Bool
  optimized : Bool
deriving DecidableEq, Repr

/-- The optimize processor (`src/utils/queue.js` lines 180-237).  Checkpoints:
`progress(10)` on entry, `(30)` after the image lookup, `(50)` after the download,
`(70)` after compression, `(100)` before returning.  It compresses at quality 85 in
`image.metadata.format`, and replaces the stored bytes, record size, and the owner's
storage usage only when `optimizedBuffer.length < image.size * 0.8`; the comparison is
modelled in exact integer form as `10 * length < 8 * size`. -/
def processOptimize (env : OptimizeEnv) (st : PersistedState) :
    List Nat × PersistedState × Except JobError OptimizeResult :=
  match st.image with
  | none => ([10], st, .error (.msg "Image not found"))
  | some img =>
    match env.download with
    | .error e => ([10, 30], st, .error (.msg e))
    | .ok buf =>
      match ImageProcessor.compress buf { quality := some 85, format := some img.format } with
      | .error e => ([10, 30, 50], st, .error (.op e))
      | .ok _opt =>
        if 10 * env.optimizedLength < 8 * img.size then
          match env.upload with
          | .error e => ([10, 30, 50, 70], st, .error (.msg e))
          | .ok _ =>
            let st₁ := { st with storedVersion := st.storedVersion + 1 }
            match env.saveOk with
            | .error e => ([10, 30, 50, 70], st₁, .error (.msg e))
            | .ok _ =>
              let st₂ := { st₁ with
                image := some { img with size := env.optimizedLength } }
              match env.userUpdateOk with
              | .error e => ([10, 30, 50, 70], st₂, .error (.msg e))
              | .ok _ =>
                let st₃ := { st₂ with userStorageUsed :=
                  st₂.userStorageUsed - ((img.size : Int) - (env.optimizedLength : Int)) }
                ([10, 30, 50, 70, 100], st₃, .ok { success := true, optimized := true })
        else
          ([10, 30, 50, 70, 100], st, .ok { success := true, optimized := true })

/-- The upload file filter's accepted MIME types
(`src/middleware/upload.js` lines 8-25, default `ALLOWED_FILE_TYPES`). -/
def allowedTypes : List String :=
  ["image/jpeg", "image/jpg", "image/png", "image/webp", "image/gif"]

/-- `fileFilter`: accepts exactly the allowed MIME types. -/
def fileFilter (mimetype : String) : Bool :=
  allowedTypes.contains mimetype

/-- The Joi bound on `filters.saturation` (`src/utils/validation.js` line 77:
`Joi.number().min(0).max(3)`); an absent field is valid because the key is optional. -/
def saturationSchemaAccepts : Option Rat → Bool
  | none => true
  | some q => decide (0 ≤ q) && decide (q ≤ 3)

/-! ## Claims -/

/-- C6: the resize operation enforces the 4000-pixel dimension ceiling: width (or
height) 4001 fails with `DimensionExceeded`, while width 4000 (with an in-range height)
passes the dimension check and the resize is applied. -/
theorem resize_dimension_boundary :
    (∀ (b : Buf) (o : ResizeOpts), o.width = some 4001 →
      ImageProcessor.resize b o = .error (.dimensionExceeded ImageProcessor.maxDimension)) ∧
    (∀ (b : Buf) (o : ResizeOpts), o.height = some 4001 →
      ImageProcessor.resize b o = .error (.dimensionExceeded ImageProcessor.maxDimension)) ∧
    (∀ (b : Buf) (o : ResizeOpts), o.width = some 4000 → o.height.getD 0 ≤ 4000 →
      ImageProcessor.resize b o =
        .ok (.resized b o.width o.height o.fit o.withoutEnlargement)) := by
  refine ⟨?_, ?_, ?_⟩
  · intro b o h
    simp [ImageProcessor.resize, ImageProcessor.maxDimension, h]
  · intro b o h
    simp [ImageProcessor.resize, ImageProcessor.maxDimension, h]
  · intro b o h h2
    have hnw : ¬ o.width.getD 0 > 4000 := by rw [h]; decide
    have hnh : ¬ o.height.getD 0 > 4000 := by omega
    simp [ImageProcessor.resize, ImageProcessor.maxDimension, hnw, hnh, truthyNat, h]

/-- Witness for C6 at concrete inputs 4001 and 4000. -/
theorem resize_dimension_boundary_witness :
    ImageProcessor.resize (Buf.src 0 "png") { width := some 4001, height := some 100 } =
        .error (.dimensionExceeded ImageProcessor.maxDimension) ∧
    ImageProcessor.resize (Buf.src 0 "png") { width := some 4000, height := some 4000 } =
        .ok (.resized (Buf.src 0 "png") (some 4000) (some 4000) "inside" true) :=
  ⟨resize_dimension_boundary.1 _ _ rfl,
   resize_dimension_boundary.2.2 _ _ rfl (by decide)⟩

lemma truthyNum_zero : truthyNum (some 0) = false := by decide

/-- C10: a filter set with `saturation: 0` — a value the Joi schema accepts — behaves
exactly like the same filter set without the saturation field, because the saturation
branch of `applyFilters` tests JS truthiness and `0` is falsy. -/
theorem saturation_zero_is_noop :
    (∀ (b : Buf) (f : FilterOpts),
      ImageProcessor.applyFilters b { f with saturation := some 0 } =
        ImageProcessor.applyFilters b { f with saturation := none }) ∧
    saturationSchemaAccepts (some 0) = true := by
  constructor
  · intro b f
    simp [ImageProcessor.applyFilters, ImageProcessor.appliedFilters, truthyNum_zero,
      truthyNum]
  · decide

/-- A transformation request that asks for a watermark but supplies no overlay bytes
(the Joi schema admits only `text` and `options` under `watermark`). -/
def watermarkOnlySpec : Transformations :=
  { watermark := some { text := some "logo" } }

/-- C5 counterexample: the pipeline executed on a watermark request with no overlay
bytes completes successfully with the buffer untouched — it does not fail with any
error, let alone `WatermarkSourceMissing` (no such failure exists in the source). -/
theorem watermark_without_source_succeeds :
    ImageProcessor.transform (Buf.src 0 "png") watermarkOnlySpec =
      Except.ok (Buf.src 0 "png") := rfl

/-- C5 amended: a watermark request without overlay bytes is silently skipped — the
pipeline behaves exactly as if the watermark field were absent. -/
theorem watermark_without_source_skipped (b : Buf) (t : Transformations)
    (w : WatermarkSpec) (hw : t.watermark = some w) (hi : w.image = none) :
    ImageProcessor.transform b t =
      ImageProcessor.transform b { t with watermark := none } := by
  have hstage : ImageProcessor.stageWatermark t =
      ImageProcessor.stageWatermark { t with watermark := none } := by
    funext x
    simp [ImageProcessor.stageWatermark, hw, hi]
  unfold ImageProcessor.transform
  rw [hstage]
  rfl

/-- Witness for C5's amended claim at a concrete specification. -/
theorem watermark_without_source_skipped_witness :
    ImageProcessor.transform (Buf.src 1 "jpeg")
        { rotate := some 90, watermark := some { text := some "logo" } } =
      ImageProcessor.transform (Buf.src 1 "jpeg")
        { rotate := some 90, watermark := none } :=
  watermark_without_source_skipped _ _ _ rfl rfl

/-- A completed job owned by `userA`, as stored in the queue. -/
def foreignJob : QJob :=
  { id := 1, name := "transform",
    data := { imageId := 7, userId := some "userA", transformations := some {} },
    progress := 100, state := "completed", timestamp := 0,
    processedOn := some 5, finishedOn := some 9 }

/-- C1: the job status route answers from the queue lookup alone.  At the failing
input — a job owned by `userA` queried by `userB` — it returns the full job snapshot
(state, progress, timestamps, payload) instead of the not-found signal, and in general
the response never depends on the requesting owner id. -/
theorem job_query_ignores_ownership :
    getJobByIdHandler [foreignJob] 1 "userB" = .found (snapshotOf foreignJob) ∧
    foreignJob.data.userId = some "userA" ∧
    (∀ (q : List QJob) (i : Nat) (u v : String),
      getJobByIdHandler q i u = getJobByIdHandler q i v) := by
  exact ⟨rfl, rfl, fun q i u v => rfl⟩

/-- A failed job that finished 24 hours before the cleanup runs. -/
def staleFailedJob : QJob :=
  { id := 2, name := "transform",
    data := { imageId := 7, userId := some "userA" },
    progress := 40, state := "failed", timestamp := 0,
    finishedOn := some 0, failedReason := some "Image not found" }

/-- C4 counterexample: the queue module's startup cleanup includes a 24-hour clean of
FAILED jobs, and running the configured clean calls removes a failed job that finished
24 hours earlier — failed jobs are not retained until an explicit operator cleanup. -/
theorem failed_jobs_pruned_by_cleanup :
    ({ grace := 86400000, status := "failed" } : CleanCall) ∈ queueCleanCalls ∧
    runQueueCleans 86400000 [staleFailedJob] = [] := by decide

/-- C4 amended: both completed and failed jobs are subject to the 24-hour clean calls
issued at queue initialisation, so a failed job older than the window is pruned; jobs
of both kinds are additionally removed immediately on completion
(`removeOnComplete: true`), while `removeOnFail: false` only prevents removal at the
moment of failure. -/
theorem cleanup_retention_policy (now f : Nat) (j : QJob)
    (hs : j.state = "failed") (hf : j.finishedOn = some f)
    (hold : f + 86400000 ≤ now) :
    runQueueCleans now [j] = [] ∧
    (∀ (i : Nat) (t : Transformations) (u : String),
      (addTransformJob i t u).2.removeOnComplete = true ∧
      (addTransformJob i t u).2.removeOnFail = false) ∧
    (∀ i : Nat, (addOptimizeJob i).2.removeOnComplete = true ∧
      (addOptimizeJob i).2.removeOnFail = false) := by
  refine ⟨?_, fun i t u => ⟨rfl, rfl⟩, fun i => ⟨rfl, rfl⟩⟩
  simp [runQueueCleans, queueCleanCalls, cleanRemoves, hs, hf, hold]

/-- Witness for C4's amended claim: a failed job two days old is pruned. -/
theorem cleanup_retention_policy_witness :
    runQueueCleans 172800000
      [{ id := 3, name := "optimize", data := { imageId := 9 }, progress := 50,
         state := "failed", timestamp := 0, finishedOn := some 0,
         failedReason := some "boom" }] = [] :=
  (cleanup_retention_policy 172800000 0 _ rfl rfl (by decide)).1

/-- C8: the job listing keeps only jobs whose payload `userId` equals the requester's
id, and `addOptimizeJob` enqueues a payload without any `userId`, so no user's listing
ever contains an optimize job's payload. -/
theorem optimize_jobs_never_listed (queue : List QJob) (sf : Option String)
    (page limit : Nat) (u : String) (imgId : Nat) :
    (getJobsHandler queue sf page limit u).filter
        (fun s => s.data == (addOptimizeJob imgId).1) = [] ∧
    (addOptimizeJob imgId).1.userId = none := by
  refine ⟨?_, rfl⟩
  rw [List.filter_eq_nil_iff]
  intro s hs
  simp only [getJobsHandler, List.mem_map] at hs
  obtain ⟨j, hj, rfl⟩ := hs
  have hu := (List.mem_filter.mp hj).2
  simp only [beq_iff_eq] at hu ⊢
  intro hcontra
  have hdata : j.data = (addOptimizeJob imgId).1 := hcontra
  rw [hdata] at hu
  simp [addOptimizeJob] at hu

/-- C2: whenever the pipeline succeeds, the operations recorded in the output buffer
are exactly the requested ones, in the fixed precedence
rotate → flip → mirror → crop → resize → filters → watermark → compress → format
conversion, with absent fields contributing nothing — a record has no field order, so
the order the specification was written in cannot influence the result. -/
theorem transform_fixed_precedence (b b' : Buf) (t : Transformations)
    (h : ImageProcessor.transform b t = .ok b') :
    trace b' = trace b ++ ImageProcessor.specOrderTrace t := by
  have h2 := ImageProcessor.bind_trace (ImageProcessor.stageRotate_trace t)
    (ImageProcessor.stageFlip_trace t)
  have h3 := ImageProcessor.bind_trace h2 (ImageProcessor.stageMirror_trace t)
  have h4 := ImageProcessor.bind_trace h3 (ImageProcessor.stageCrop_trace t)
  have h5 := ImageProcessor.bind_trace h4 (ImageProcessor.stageResize_trace t)
  have h6 := ImageProcessor.bind_trace h5 (ImageProcessor.stageFilters_trace t)
  have h7 := ImageProcessor.bind_trace h6 (ImageProcessor.stageWatermark_trace t)
  have h8 := ImageProcessor.bind_trace h7 (ImageProcessor.stageCompress_trace t)
  have h9 := ImageProcessor.bind_trace h8 (ImageProcessor.stageFormat_trace t)
  unfold ImageProcessor.transform at h
  have := h9 b b' h
  simpa [ImageProcessor.specOrderTrace, List.append_assoc] using this

/-- A concrete Transform Specification exercising four stages. -/
def demoSpec : Transformations :=
  { rotate := some 90, resize := some { width := some 100, height := some 100 },
    filters := some { grayscale := true }, format := some "webp" }

/-- The buffer the pipeline produces for `demoSpec`. -/
def demoOut : Buf :=
  Buf.encoded (Buf.filtered (Buf.resized (Buf.rotate (Buf.src 0 "png") 90)
    (some 100) (some 100) "inside" true) [FilterStep.grayscale]) "webp" 80 false 0 false

/-- Witness for C2: on a concrete run the recorded trace matches the fixed order. -/
theorem transform_fixed_precedence_witness :
    ImageProcessor.transform (Buf.src 0 "png") demoSpec = .ok demoOut ∧
    trace demoOut = ImageProcessor.specOrderTrace demoSpec := by
  constructor
  · rfl
  · have := transform_fixed_precedence (Buf.src 0 "png") demoOut demoSpec rfl
    simpa using this

/-- C7: within one execution attempt of a transform job, the reported progress values
are monotonically non-decreasing, stay in 0..100, and end at 100 exactly on success —
whatever the outcomes of the external calls. -/
theorem transform_progress_monotone (env : TransformJobEnv) (t : Transformations) :
    List.Chain' (· ≤ ·) (processTransform env t).1 ∧
    (∀ p ∈ (processTransform env t).1, p ≤ 100) ∧
    ((processTransform env t).2.isOk = true →
      (processTransform env t).1.getLast? = some 100) := by
  dsimp only [processTransform]
  repeat' split
  all_goals refine ⟨by simp, by intro p hp; simp at hp; omega, ?_⟩
  all_goals intro h
  all_goals first
    | rfl
    | exact Bool.noConfusion h

/-- The image record every successful run in the examples below reads. -/
def transformImageRec : ImageRec :=
  { userId := "userA", filename := "a.jpg", mimeType := "image/jpeg",
    size := 100, s3Key := "images/userA/a.jpg", format := "jpeg" }

/-- An execution environment in which every external call succeeds. -/
def transformOkEnv : TransformJobEnv :=
  { image := some transformImageRec, download := .ok (Buf.src 0 "jpeg"),
    upload := .ok (), metadataOk := .ok (), saveOk := .ok (), userUpdateOk := .ok () }

/-- Witness for C7: a fully successful attempt reports 10,20,40,60,70,80,90,100. -/
theorem transform_progress_monotone_witness :
    (processTransform transformOkEnv {}).1.getLast? = some 100 ∧
    List.Chain' (· ≤ ·) (processTransform transformOkEnv {}).1 := by
  refine ⟨(transform_progress_monotone transformOkEnv {}).2.2 (by rfl),
    (transform_progress_monotone transformOkEnv {}).1⟩

lemma optimize_ok_payload (env : OptimizeEnv) (st : PersistedState) (r : OptimizeResult)
    (h : (processOptimize env st).2.2 = .ok r) :
    r = { success := true, optimized := true } := by
  dsimp only [processOptimize] at h
  repeat' split at h
  all_goals simp_all

/-- C3 amended: an optimize job whose re-encoded output is not at least 20% smaller
completes without mutating the stored bytes, the image record, or the user's storage
usage — but its result payload does NOT mark the no-op: every completed optimize job
returns the same `{success: true, optimized: true}` payload, so the no-op outcome is
not distinguishable from the applied outcome. -/
theorem optimize_noop_below_threshold (env : OptimizeEnv) (st : PersistedState)
    (img : ImageRec) (himg : st.image = some img)
    (hth : ¬ (10 * env.optimizedLength < 8 * img.size)) :
    (processOptimize env st).2.1 = st ∧
    (∀ r : OptimizeResult, (processOptimize env st).2.2 = .ok r →
      r = { success := true, optimized := true }) ∧
    (∀ (env₂ : OptimizeEnv) (st₂ : PersistedState) (r₂ : OptimizeResult),
      (processOptimize env₂ st₂).2.2 = .ok r₂ →
      r₂ = { success := true, optimized := true }) := by
  refine ⟨?_, fun r hr => optimize_ok_payload env st r hr,
    fun env₂ st₂ r₂ hr₂ => optimize_ok_payload env₂ st₂ r₂ hr₂⟩
  obtain ⟨sti, stv, stu⟩ := st
  dsimp only at himg
  subst himg
  dsimp only [processOptimize]
  repeat' split
  all_goals first
    | rfl
    | (exfalso; omega)

/-- The record and state an optimize job reads in the concrete runs below. -/
def optimizeImage : ImageRec :=
  { userId := "userA", filename := "photo.jpg", mimeType := "image/jpeg",
    size := 100, s3Key := "images/userA/photo.jpg", format := "jpeg" }

/-- Persisted state holding `optimizeImage`. -/
def optimizeState : PersistedState :=
  { image := some optimizeImage, storedVersion := 0, userStorageUsed := 100 }

/-- An optimize run whose re-encoding shrinks the 100-byte image by only 5%. -/
def optimizeNoopEnv : OptimizeEnv :=
  { download := .ok (Buf.src 0 "jpeg"), optimizedLength := 95,
    upload := .ok (), saveOk := .ok (), userUpdateOk := .ok () }

/-- An optimize run whose re-encoding shrinks the 100-byte image by 50%. -/
def optimizeAppliedEnv : OptimizeEnv :=
  { download := .ok (Buf.src 0 "jpeg"), optimizedLength := 50,
    upload := .ok (), saveOk := .ok (), userUpdateOk := .ok () }

/-- C3 counterexample: the 5%-reduction job completes without touching the state, the
50%-reduction job mutates it, and both return the identical result payload — the
payload does not indicate that no optimization was applied. -/
theorem optimize_noop_payload_indistinguishable :
    (processOptimize optimizeNoopEnv optimizeState).2.1 = optimizeState ∧
    (processOptimize optimizeAppliedEnv optimizeState).2.1 ≠ optimizeState ∧
    (processOptimize optimizeNoopEnv optimizeState).2.2 =
      (processOptimize optimizeAppliedEnv optimizeState).2.2 := by
  refine ⟨by decide, by decide, by decide⟩

/-- The image record for the C3 witness run. -/
def noopImage2 : ImageRec :=
  { userId := "u2", filename := "b.png", mimeType := "image/png",
    size := 100, s3Key := "images/u2/b.png", format := "png" }

/-- Persisted state for the C3 witness run. -/
def noopState2 : PersistedState :=
  { image := some noopImage2, storedVersion := 3, userStorageUsed := 7 }

/-- A 10%-reduction optimize run for the C3 witness. -/
def noopEnv2 : OptimizeEnv :=
  { download := .ok (Buf.src 2 "png"), optimizedLength := 90,
    upload := .ok (), saveOk := .ok (), userUpdateOk := .ok () }

/-- Witness for C3's amended claim at a concrete 10%-reduction run. -/
theorem optimize_noop_below_threshold_witness :
    (processOptimize noopEnv2 noopState2).2.1 = noopState2 :=
  (optimize_noop_below_threshold noopEnv2 noopState2 noopImage2 rfl (by decide)).1

lemma compress_gif (b : Buf) (o : CompressOpts)
    (h : orTruthyStr o.format (bufFormat b) = "gif") :
    ImageProcessor.compress b o = .error (.unsupportedFormat "gif") := by
  show ImageProcessor.changeFormat b (orTruthyStr o.format (bufFormat b))
      { quality := some (o.quality.getD ImageProcessor.defaultQuality) } =
    .error (.unsupportedFormat "gif")
  rw [h]
  rfl

/-- C9: the upload filter accepts `image/gif`, yet the format switch handles only
jpeg/jpg/png/webp/avif, so compressing a gif-format image — which is what every
optimize job does, since compress defaults to the image's current format — fails with
the unsupported-format error. -/
theorem gif_images_fail_optimize :
    fileFilter "image/gif" = true ∧
    (∀ (b : Buf) (o : CompressOpts), o.format = none → bufFormat b = "gif" →
      ImageProcessor.compress b o = .error (.unsupportedFormat "gif")) ∧
    (∀ (env : OptimizeEnv) (st : PersistedState) (img : ImageRec) (buf : Buf),
      st.image = some img → img.format = "gif" → env.download = .ok buf →
      (processOptimize env st).2.2 = .error (.op (.unsupportedFormat "gif"))) := by
  refine ⟨rfl, ?_, ?_⟩
  · intro b o hf hb
    apply compress_gif
    rw [hf]
    simpa [orTruthyStr] using hb
  · intro env st img buf himg hfmt hdl
    obtain ⟨sti, stv, stu⟩ := st
    dsimp only at himg
    subst himg
    dsimp only [processOptimize]
    rw [hdl, hfmt]
    dsimp only
    rw [compress_gif buf { quality := some 85, format := some "gif" } rfl]

/-- A gif-format image record as the optimize worker would read it. -/
def gifImage : ImageRec :=
  { userId := "userA", filename := "anim.gif", mimeType := "image/gif",
    size := 100, s3Key := "images/userA/anim.gif", format := "gif" }

/-- Persisted state holding `gifImage`. -/
def gifState : PersistedState :=
  { image := some gifImage, storedVersion := 0, userStorageUsed := 0 }

/-- An optimize run on the gif image whose download succeeds. -/
def gifOptimizeEnv : OptimizeEnv :=
  { download := .ok (Buf.src 5 "gif"), optimizedLength := 10,
    upload := .ok (), saveOk := .ok (), userUpdateOk := .ok () }

/-- Witness for C9 at a concrete gif image. -/
theorem gif_images_fail_optimize_witness :
    ImageProcessor.compress (Buf.src 5 "gif") {} = .error (.unsupportedFormat "gif") ∧
    (processOptimize gifOptimizeEnv gifState).2.2 =
      .error (.op (.unsupportedFormat "gif")) :=
  ⟨gif_images_fail_optimize.2.1 (Buf.src 5 "gif") {} rfl rfl,
   gif_images_fail_optimize.2.2 gifOptimizeEnv gifState gifImage (Buf.src 5 "gif")
     rfl rfl rfl⟩
